import Mathlib

/-!
Verification of the image-priming subsystem of the gapid Vulkan replay
state builder.  The definitions below are a shallow embedding of
`gapis/api/vulkan/primeable_image_data.go` and the image-primer source file
(image primer, render handler, image-store handler, buffer-image copy
session).  Machine integers are modelled as `Nat` with explicit reduction
modulo `2 ^ 64` where the Go code performs 64-bit arithmetic that can wrap.
-/

/-- Modelled from the spec: `nextMultipleOf` is defined outside the provided
source files; the spec describes it as rounding a value up to the next
multiple of an alignment (used with alignments 256 and 8). -/
def nextMultipleOf (v a : Nat) : Nat := ((v + a - 1) / a) * a

/-- `true` iff an `Except` value is `ok` (helper for stating error results). -/
def exceptIsOk {ε α : Type} : Except ε α → Bool
  | Except.ok _ => true
  | Except.error _ => false

/-! ## Vulkan flag and enum constants used by the selector and handlers -/

def VK_IMAGE_USAGE_TRANSFER_DST_BIT : Nat := 2

def VK_IMAGE_USAGE_STORAGE_BIT : Nat := 8

def VK_IMAGE_USAGE_COLOR_ATTACHMENT_BIT : Nat := 16

def VK_IMAGE_USAGE_DEPTH_STENCIL_ATTACHMENT_BIT : Nat := 32

def VK_IMAGE_TILING_LINEAR : Nat := 1

def VK_IMAGE_LAYOUT_PREINITIALIZED : Nat := 8

def VK_FORMAT_D24_UNORM_S8_UINT : Nat := 129

def VK_FORMAT_X8_D24_UNORM_PACK32 : Nat := 125

/-! ## Strategy selector (`newPrimeableImageData`) -/

/-- The creation parameters of the destination image that the selector
inspects, together with the image's aspect classification.
`aspectIsDepthStencil` records whether the image's aspect (derived from its
format) is depth and/or stencil; the code's selector never reads it, but the
spec-described selection policy does, so it is carried here to compare the
two. -/
structure ImageInfo where
  usage : Nat
  tiling : Nat
  initialLayout : Nat
  aspectIsDepthStencil : Bool
deriving DecidableEq

/-- The four priming strategies. -/
inductive PrimeKind where
  | byCopy
  | byRendering
  | byImageStore
  | byPreinitialization
deriving DecidableEq

/-- Strategy selection of `newPrimeableImageData`
(primeable_image_data.go, lines 332-642), projected onto the chosen
strategy kind.  `isDepth` is computed from the usage flags exactly as in the
source (`Usage() & VK_IMAGE_USAGE_DEPTH_STENCIL_ATTACHMENT_BIT != 0`);
the subsequent `primeBy*` conditions mirror lines 339, 365, 409 and 630,
and the branches are tried in source order (first match wins). -/
def newPrimeableImageDataKind (info : ImageInfo) : Option PrimeKind :=
  let transDstBit := VK_IMAGE_USAGE_TRANSFER_DST_BIT
  let attBits := VK_IMAGE_USAGE_COLOR_ATTACHMENT_BIT ||| VK_IMAGE_USAGE_DEPTH_STENCIL_ATTACHMENT_BIT
  let storageBit := VK_IMAGE_USAGE_STORAGE_BIT
  let isDepth := info.usage &&& VK_IMAGE_USAGE_DEPTH_STENCIL_ATTACHMENT_BIT != 0
  let primeByCopy := (info.usage &&& transDstBit != 0) && !isDepth
  let primeByRendering := !primeByCopy && (info.usage &&& attBits != 0)
  let primeByImageStore := !primeByCopy && !primeByRendering && (info.usage &&& storageBit != 0)
  let primeByPreinitialization := !primeByCopy && !primeByRendering && !primeByImageStore &&
    (info.tiling == VK_IMAGE_TILING_LINEAR) && (info.initialLayout == VK_IMAGE_LAYOUT_PREINITIALIZED)
  if primeByCopy then some PrimeKind.byCopy
  else if primeByRendering then some PrimeKind.byRendering
  else if primeByImageStore then some PrimeKind.byImageStore
  else if primeByPreinitialization then some PrimeKind.byPreinitialization
  else none

/-- The selection policy exactly as the claim words it (for the refinement
comparison with `newPrimeableImageDataKind`): strategy 1 requires the
image's ASPECT not to be depth/stencil. -/
def claimSelectKind (info : ImageInfo) : Option PrimeKind :=
  if (info.usage &&& VK_IMAGE_USAGE_TRANSFER_DST_BIT != 0) && !info.aspectIsDepthStencil then
    some PrimeKind.byCopy
  else if info.usage &&& (VK_IMAGE_USAGE_COLOR_ATTACHMENT_BIT ||| VK_IMAGE_USAGE_DEPTH_STENCIL_ATTACHMENT_BIT) != 0 then
    some PrimeKind.byRendering
  else if info.usage &&& VK_IMAGE_USAGE_STORAGE_BIT != 0 then
    some PrimeKind.byImageStore
  else if (info.tiling == VK_IMAGE_TILING_LINEAR) && (info.initialLayout == VK_IMAGE_LAYOUT_PREINITIALIZED) then
    some PrimeKind.byPreinitialization
  else none

/-- The amended selection policy: first-match-wins over the four
conditions, with condition 1 reading the usage flags (transfer-destination
present, depth/stencil-attachment absent) instead of the image's aspect. -/
def amendedSelectKind (info : ImageInfo) : Option PrimeKind :=
  if (info.usage &&& VK_IMAGE_USAGE_TRANSFER_DST_BIT != 0) &&
      !(info.usage &&& VK_IMAGE_USAGE_DEPTH_STENCIL_ATTACHMENT_BIT != 0) then
    some PrimeKind.byCopy
  else if info.usage &&& (VK_IMAGE_USAGE_COLOR_ATTACHMENT_BIT ||| VK_IMAGE_USAGE_DEPTH_STENCIL_ATTACHMENT_BIT) != 0 then
    some PrimeKind.byRendering
  else if info.usage &&& VK_IMAGE_USAGE_STORAGE_BIT != 0 then
    some PrimeKind.byImageStore
  else if (info.tiling == VK_IMAGE_TILING_LINEAR) && (info.initialLayout == VK_IMAGE_LAYOUT_PREINITIALIZED) then
    some PrimeKind.byPreinitialization
  else none

/-! ## Staging memory allocation (`imagePrimer.createImageAndBindMemory`) -/

/-- The allocation size computed by `createImageAndBindMemory`
(image primer source, lines 85-88):
`allocSize := VkDeviceSize(imgSize * 2); if allocSize < 256*1024 { allocSize = 256*1024 }`.
The multiplication is 64-bit and may wrap, hence the reduction modulo
`2 ^ 64`. -/
def createImageAndBindMemoryAllocSize (imgSize : Nat) : Nat :=
  let allocSize := (imgSize * 2) % 2 ^ 64
  if allocSize < 256 * 1024 then 256 * 1024 else allocSize

/-! ## Format normalizer (`unpackData`)

The channel/data-type view of the `stream` package formats that
`unpackData` manipulates (image primer source, lines 2158-2214). -/

inductive StreamChannel where
  | red
  | green
  | blue
  | alpha
  | depth
  | stencil
deriving DecidableEq

/-- A stream data type: a sized integer (signed or unsigned, covering the
UNORM/SNORM/UINT/SINT layouts, whose normalization lives in the sampling
curve), a sized float, or anything else (rejected by `unpackData`). -/
inductive StreamDataType where
  | int (signed : Bool) (bits : Nat)
  | float (ebits mbits : Nat)
  | other
deriving DecidableEq

structure StreamComponent where
  channel : StreamChannel
  dataType : StreamDataType
  samplingLinear : Bool
deriving DecidableEq

def streamU32 : StreamDataType := StreamDataType.int false 32

def streamS32 : StreamDataType := StreamDataType.int true 32

def streamF32 : StreamDataType := StreamDataType.float 8 23

/-- Depth and stencil channels are remapped onto the red channel slot
(`if sc.Channel == Depth || sc.Channel == Stencil { sc.Channel = Red }`,
lines 2187-2189). -/
def remapChannel (c : StreamChannel) : StreamChannel :=
  if c = StreamChannel.depth ∨ c = StreamChannel.stencil then StreamChannel.red else c

/-- Mutation of the destination format's component for a given channel:
`dc.DataType = ...; dc.Sampling = stream.Linear` (lines 2195-2203). -/
def updateDst (l : List StreamComponent) (ch : StreamChannel) (dt : StreamDataType) :
    List StreamComponent :=
  l.map fun d =>
    if d.channel = ch then { d with dataType := dt, samplingLinear := true } else d

/-- First component of a format with the given channel
(`df.Component(sc.Channel)`). -/
def findComp (l : List StreamComponent) (ch : StreamChannel) : Option StreamComponent :=
  l.find? fun d => d.channel == ch

/-- The widened data type a source component's encoding dictates:
unsigned integer layouts (UNORM/UINT) widen to U32, signed integer layouts
(SNORM/SINT) to S32, floating point to F32; anything else is rejected. -/
def widenDataType : StreamDataType → Option StreamDataType
  | StreamDataType.int signed _ => some (if signed then streamS32 else streamU32)
  | StreamDataType.float _ _ => some streamF32
  | StreamDataType.other => none

/-- The format-rewriting loop of `unpackData` (lines 2186-2207): for every
source component, remap depth/stencil to red, look the channel up in the
destination format (error when absent), and set the destination component's
data type to U32 / S32 / F32 according to the source component's encoding
(error for any other encoding).  Returns the rewritten destination format
that is then handed to `stream.Convert`; the source-side mutations
(channel remap, linear sampling) are reflected through `remapChannel` in
the lookups. -/
def unpackDataBuildFormats : List StreamComponent → List StreamComponent →
    Except String (List StreamComponent)
  | [], df => Except.ok df
  | sc :: rest, df =>
    let ch := remapChannel sc.channel
    if (findComp df ch).isNone then
      Except.error "unsuppored channel in source data format"
    else
      match sc.dataType with
      | StreamDataType.int signed _ =>
        unpackDataBuildFormats rest (updateDst df ch (if signed then streamS32 else streamU32))
      | StreamDataType.float _ _ =>
        unpackDataBuildFormats rest (updateDst df ch streamF32)
      | StreamDataType.other =>
        Except.error "DataType other than stream.Integer and stream.Float are not handled."

/-! ## Per-subresource copy extraction (`getCopyAndData`) and collection -/

/-- The aspect enum used by the copy session. -/
inductive Aspect where
  | color
  | depth
  | stencil
deriving DecidableEq

/-- Inputs of `getCopyAndData` relevant to its length checking
(lines 2015-2105).  `rawLen` is `dataSlice.Size()`; `unpackedLen` is the
length `unpackDataForPriming` returns when it is invoked and succeeds
(`unpackOk`); `expectedAligned` is `levelSize(...).alignedLevelSizeInBuf`
for the destination format.  The byte-level conversion itself
(`stream.Convert`) and `levelSize` live outside the provided sources, so
their results are inputs here. -/
structure CopyRegionInput where
  srcFmt : Nat
  dstFmt : Nat
  srcAspect : Aspect
  rawLen : Nat
  unpackedLen : Nat
  unpackOk : Bool
  expectedAligned : Nat
deriving DecidableEq

/-- Whether `getCopyAndData` runs the unpacking path: destination format
differs from the source format (line 2055), or the formats agree, the
aspect is depth and the format is D24-packed (lines 2071-2075). -/
def unpackRequired (r : CopyRegionInput) : Bool :=
  (r.dstFmt != r.srcFmt) ||
    ((r.srcAspect == Aspect.depth) &&
      ((r.srcFmt == VK_FORMAT_D24_UNORM_S8_UINT) || (r.srcFmt == VK_FORMAT_X8_D24_UNORM_PACK32)))

/-- The payload length `getCopyAndData` ends up checking against the
expected aligned size: the unpacked data padded to a multiple of 8 when
unpacking produced data, else the raw data padded to a multiple of 8 when
its size is not a multiple of 8, else the raw size (lines 2084-2099). -/
def effectivePayloadLen (r : CopyRegionInput) : Nat :=
  let uLen := if unpackRequired r then r.unpackedLen else 0
  if uLen ≠ 0 then nextMultipleOf uLen 8
  else if r.rawLen % 8 ≠ 0 then nextMultipleOf r.rawLen 8
  else r.rawLen

/-- `getCopyAndData` (lines 2015-2105), projected onto its error behaviour
and the payload length of the returned buffer fill info. -/
def getCopyAndDataM (r : CopyRegionInput) : Except String Nat :=
  if unpackRequired r && !r.unpackOk then
    Except.error "[Unpacking data]"
  else
    let uLen := if unpackRequired r then r.unpackedLen else 0
    if uLen ≠ 0 then
      let l := nextMultipleOf uLen 8
      if l ≠ r.expectedAligned then
        Except.error "size of unpackedData data does not match expectation"
      else Except.ok l
    else if r.rawLen % 8 ≠ 0 then
      let l := nextMultipleOf r.rawLen 8
      if l ≠ r.expectedAligned then
        Except.error "size of unpackedData data does not match expectation"
      else Except.ok l
    else if r.rawLen ≠ r.expectedAligned then
      Except.error "size of unpackedData data does not match expectation"
    else Except.ok r.rawLen

/-- The walk of `collectCopiesFromSubresourceRange` (lines 1767-1793): for
each visited subresource, ask `getCopyAndData`; on error, log it and
`continue` with the remaining subresources; on success, append the copy. -/
def collectCopiesFromSubresourceRange : List CopyRegionInput → List Nat
  | [] => []
  | r :: rest =>
    match getCopyAndDataM r with
    | Except.error _ => collectCopiesFromSubresourceRange rest
    | Except.ok l => l :: collectCopiesFromSubresourceRange rest

/-! ## Scratch-buffer batching (`rolloutBufCopies`, lines 1899-1925)

`scratchBufferSize` is defined outside the provided sources; the spec only
calls it "the fixed maximum scratch-buffer size", so it is a parameter
(`maxSize`) of the definitions below. -/

/-- The inner greedy loop (lines 1917-1922): starting from running offset
`acc` (the sizes already in the batch), keep taking descriptors while the
running offset rounded up to 256 stays within `maxSize`; stop at the first
descriptor that would exceed it.  Returns the taken sizes and the
untouched remainder. -/
def takeBatch (maxSize acc : Nat) : List Nat → List Nat × List Nat
  | [] => ([], [])
  | s :: rest =>
    if nextMultipleOf (acc + s) 256 > maxSize then ([], s :: rest)
    else
      let p := takeBatch maxSize (acc + s) rest
      (s :: p.1, p.2)

/-- The outer loop (lines 1901-1925): while descriptors remain, start a
batch with the first descriptor unconditionally (`addIthCopyAndContent(0)`)
and extend it greedily with `takeBatch`.  `fuel` bounds the number of
iterations; every iteration consumes at least one descriptor, so
`l.length` fuel is enough. -/
def rolloutBatchesAux (maxSize : Nat) : Nat → List Nat → List (List Nat)
  | 0, _ => []
  | _ + 1, [] => []
  | fuel + 1, s :: rest =>
    let p := takeBatch maxSize s rest
    (s :: p.1) :: rolloutBatchesAux maxSize fuel p.2

/-- The batches of copy-descriptor content sizes emitted by
`rolloutBufCopies` for one destination image. -/
def rolloutBatches (maxSize : Nat) (l : List Nat) : List (List Nat) :=
  rolloutBatchesAux maxSize l.length l

/-! ## Buffer-image copy session rollout and task commits -/

/-- The collected copy descriptors for one destination image: the content
sizes of its `bufferSubRangeFillInfo`s, in collection order. -/
structure DstCopies where
  sizes : List Nat
deriving DecidableEq

/-- The state of an `ipBufferImageCopySession` at rollout time.  In the
source the per-image `copies` and `content` maps always hold lists of equal
length built in lockstep, so they are merged into `dsts` here; `totalSize`
is the field the source maintains as the running sum of content sizes. -/
structure ipBufferImageCopySessionM where
  dsts : List DstCopies
  totalSize : Nat
deriving DecidableEq

/-- The outcome of the next `tsk.commit()` call; commits past the end of
the supplied list succeed. -/
def popCommit : List (Except String Unit) → Except String Unit × List (Except String Unit)
  | [] => (Except.ok (), [])
  | c :: r => (c, r)

/-- One scratch task is committed per emitted batch (lines 1905-1982); the
first failing commit aborts with the error wrapped with the task's
purpose. -/
def commitBatchTasks : List (List Nat) → List (Except String Unit) →
    Except String Unit × List (Except String Unit)
  | [], q => (Except.ok (), q)
  | _ :: bs, q =>
    let p := popCommit q
    match p.1 with
    | Except.error e =>
      (Except.error ("[Committing scratch buffer filling and image copy commands] " ++ e), p.2)
    | Except.ok _ => commitBatchTasks bs p.2

/-- Rollout for one destination image (lines 1829-2002): commit the
pre-copy layout-transition task, then one task per batch, then the
post-copy layout-transition task; the first failing commit aborts with the
error wrapped with the task's purpose. -/
def rolloutDst (maxSize : Nat) (d : DstCopies) (q : List (Except String Unit)) :
    Except String (List (List Nat)) × List (Except String Unit) :=
  let p1 := popCommit q
  match p1.1 with
  | Except.error e =>
    (Except.error ("[Committing pre-copy destination image layout transition commands] " ++ e), p1.2)
  | Except.ok _ =>
    let batches := rolloutBatches maxSize d.sizes
    let pb := commitBatchTasks batches p1.2
    match pb.1 with
    | Except.error e => (Except.error e, pb.2)
    | Except.ok _ =>
      let p3 := popCommit pb.2
      match p3.1 with
      | Except.error e =>
        (Except.error ("[Committing post-copy destination image layout transition commands] " ++ e), p3.2)
      | Except.ok _ => (Except.ok batches, p3.2)

/-- Rollout over all destination images of the job, in order. -/
def rolloutDsts (maxSize : Nat) : List DstCopies → List (Except String Unit) →
    Except String (List (List (List Nat)))
  | [], _ => Except.ok []
  | d :: ds, q =>
    match rolloutDst maxSize d q with
    | (Except.error e, _) => Except.error e
    | (Except.ok bs, q1) =>
      match rolloutDsts maxSize ds q1 with
      | Except.error e => Except.error e
      | Except.ok rest => Except.ok (bs :: rest)

/-- `ipBufferImageCopySession.rolloutBufCopies` (lines 1818-2005): reject
a session with no collected content
(`h.totalSize == 0 || len(h.copies) == 0 || len(h.content) == 0`), then
roll the copies out per destination image, committing the layout-transition
and copy tasks in order.  Returns the emitted batches per destination
image. -/
def ipBufferImageCopySession.rolloutBufCopies (maxSize : Nat)
    (s : ipBufferImageCopySessionM) (q : List (Except String Unit)) :
    Except String (List (List (List Nat))) :=
  if s.totalSize = 0 ∨ s.dsts = [] then
    Except.error "no content for buf->img copy"
  else rolloutDsts maxSize s.dsts q

/-- `ipPrimeableByBufferCopy.prime` (primeable_image_data.go, lines 70-76):
run the session rollout and wrap any error. -/
def ipPrimeableByBufferCopy.prime (maxSize : Nat) (s : ipBufferImageCopySessionM)
    (q : List (Except String Unit)) : Except String Unit :=
  match ipBufferImageCopySession.rolloutBufCopies maxSize s q with
  | Except.error e =>
    Except.error ("[Rolling out the buf->img copy commands for image] " ++ e)
  | Except.ok _ => Except.ok ()

/-! ## Image-store (compute) handler (`ipImageStoreHandler.store`) -/

def specMaxComputeGroupCountX : Nat := 65536

def specMaxComputeGroupCountY : Nat := 65536

def specMaxComputeGroupCountZ : Nat := 65536

structure VkExtent3DM where
  width : Nat
  height : Nat
  depth : Nat
deriving DecidableEq

/-- The inputs of `store` the embedding tracks: the job's dispatch extent,
whether the input and output image types match (line 440), and whether the
compute pipeline could be created (line 453). -/
structure ipImageStoreJobM where
  extent : VkExtent3DM
  imageTypesMatch : Bool
deriving DecidableEq

/-- `ipImageStoreHandler.store` (lines 345-530): returns the error result
handed to the caller, the recorded dispatch's group counts (`none` when no
`VkCmdDispatch` is recorded), and the list of errors that are only logged.
The three extent checks reject extents strictly greater than the per-axis
maximum (lines 462-470); the dispatch group counts equal the extent
(lines 518-521); a failing `tsk.commit()` is logged (line 526) and `store`
still returns success (line 529). -/
def ipImageStoreHandler.store (job : ipImageStoreJobM) (pipelineOk : Bool)
    (commitResult : Except String Unit) :
    Except String Unit × Option (Nat × Nat × Nat) × List String :=
  if !job.imageTypesMatch then
    (Except.error "input image type != output image type", none, [])
  else if !pipelineOk then
    (Except.error "[Getting compute pipeline]", none, [])
  else if specMaxComputeGroupCountX < job.extent.width then
    (Except.error "Extent.Width too large", none, [])
  else if specMaxComputeGroupCountY < job.extent.height then
    (Except.error "Extent.Height too large", none, [])
  else if specMaxComputeGroupCountZ < job.extent.depth then
    (Except.error "Extent.z too large", none, [])
  else
    let dispatch := some (job.extent.width, job.extent.height, job.extent.depth)
    match commitResult with
    | Except.error e =>
      (Except.ok (), dispatch, ["[Committing scratch task for priming storage image] " ++ e])
    | Except.ok _ => (Except.ok (), dispatch, [])

/-! ## Render handler, stencil path (`ipRenderHandler.render`, lines 981-1047) -/

def VK_STENCIL_OP_KEEP : Nat := 0

def VK_STENCIL_OP_REPLACE : Nat := 2

def VK_COMPARE_OP_ALWAYS : Nat := 7

structure VkStencilOpState where
  failOp : Nat
  passOp : Nat
  depthFailOp : Nat
  compareOp : Nat
deriving DecidableEq

/-- The front-face stencil op state of the graphics pipeline used for
stencil rendering (`getOrCreateGraphicsPipeline`, lines 1481-1490):
fail keep, pass replace, depth-fail replace, compare always; write mask and
reference are dynamic. -/
def ipGfxPipelineStencilFront : VkStencilOpState :=
  { failOp := VK_STENCIL_OP_KEEP
    passOp := VK_STENCIL_OP_REPLACE
    depthFailOp := VK_STENCIL_OP_REPLACE
    compareOp := VK_COMPARE_OP_ALWAYS }

/-- The per-pass dynamic state recorded by the stencil branch of `render`. -/
structure ipRenderDrawInfo where
  stencilWriteMask : Nat
  stencilReference : Nat
  clearStencil : Bool
deriving DecidableEq

/-- The eight draw passes recorded by `render` for a stencil target
(lines 983-1047): pass `i` sets dynamic stencil write mask and reference to
`0x1 << i` and clears the stencil attachment only when `i == 0`. -/
def renderStencilDrawInfos : List ipRenderDrawInfo :=
  (List.range 8).map fun i =>
    { stencilWriteMask := 1 <<< i
      stencilReference := 1 <<< i
      clearStencil := i == 0 }

/-- Modelled from the spec: the stencil fragment shader
(`ipRenderStencilShaderSpirv`, generated outside the provided sources)
receives the pass's bit index as a push constant and keeps exactly the
fragments whose target stencil value has that bit set, so that each pass
deposits one bit plane. -/
def stencilShaderKeeps (v i : Nat) : Bool := v.testBit i

/-- Modelled from the spec: the Vulkan "replace" stencil operation under a
write mask stores `(ref AND mask) OR (old AND NOT mask)` in the 8-bit
stencil value (the compare op is "always", so the op applies to every kept
fragment). -/
def applyStencilReplace (old ref mask : Nat) : Nat :=
  (old &&& (255 ^^^ mask)) ||| (ref &&& mask)

/-- Effect of pass `p.1` (with draw info `p.2`) on one pixel's stored
stencil value `s`, for target value `v`: the clear (recorded before the
draw, `beginRenderPassAndDraw` lines 1126-1151) zeroes the value, then the
draw replaces the masked bits for fragments the shader keeps. -/
def runStencilPass (v s : Nat) (p : Nat × ipRenderDrawInfo) : Nat :=
  let s0 := if p.2.clearStencil then 0 else s
  if stencilShaderKeeps v p.1 then
    applyStencilReplace s0 p.2.stencilReference p.2.stencilWriteMask
  else s0

/-- The stored stencil value of one pixel after the eight recorded passes,
starting from stored value `s0`, for target value `v`. -/
def runStencilRender (v s0 : Nat) : Nat :=
  (renderStencilDrawInfos.enum).foldl (runStencilPass v) s0

/-! ## Primeable free (`ipPrimeableByRendering.free`,
`ipPrimeableByImageStore.free`) -/

/-- A scratch task as far as `free` is concerned: the callbacks deferred
until all work committed so far on the queue has executed. -/
structure scratchTaskM where
  deferredUntilExecuted : List Nat
deriving DecidableEq

/-- `deferUntilAllCommittedExecuted` (primeable_image_data.go, lines
51-59): create a scratch task on the priming queue, defer the given
callbacks until the task has executed, and commit it. -/
def deferUntilAllCommittedExecuted (callbacks : List Nat) : scratchTaskM :=
  { deferredUntilExecuted := callbacks }

structure ipPrimeableByRenderingM where
  freeCallbacks : List Nat
deriving DecidableEq

/-- `ipPrimeableByRendering.free` (lines 93-98): schedule the free
callbacks to run once all committed work on the queue has executed, then
null the callback list to avoid a double free. -/
def ipPrimeableByRendering.free (s : ipPrimeableByRenderingM) :
    ipPrimeableByRenderingM × scratchTaskM :=
  ({ freeCallbacks := [] }, deferUntilAllCommittedExecuted s.freeCallbacks)

structure ipPrimeableByImageStoreM where
  freeCallbacks : List Nat
deriving DecidableEq

/-- `ipPrimeableByImageStore.free` (lines 169-175): identical scheme. -/
def ipPrimeableByImageStore.free (s : ipPrimeableByImageStoreM) :
    ipPrimeableByImageStoreM × scratchTaskM :=
  ({ freeCallbacks := [] }, deferUntilAllCommittedExecuted s.freeCallbacks)

/-! # Theorems -/

/-- The code's selector agrees with the amended (usage-flag based)
first-match policy on every image. -/
theorem newPrimeableImageDataKind_eq_amended (info : ImageInfo) :
    newPrimeableImageDataKind info = amendedSelectKind info := by
  simp only [newPrimeableImageDataKind, amendedSelectKind]
  cases ht : (info.usage &&& VK_IMAGE_USAGE_TRANSFER_DST_BIT != 0) <;>
    cases hd : (info.usage &&& VK_IMAGE_USAGE_DEPTH_STENCIL_ATTACHMENT_BIT != 0) <;>
      cases ha : (info.usage &&&
        (VK_IMAGE_USAGE_COLOR_ATTACHMENT_BIT ||| VK_IMAGE_USAGE_DEPTH_STENCIL_ATTACHMENT_BIT) != 0) <;>
        cases hs : (info.usage &&& VK_IMAGE_USAGE_STORAGE_BIT != 0) <;>
          simp [ht, hd, ha, hs]

/-- C1 (counterexample): a depth/stencil-aspect image whose usage is
transfer-destination only.  The claim's condition 1 ("aspect is not
depth/stencil") fails and no other condition holds, so the claim-described
policy picks no strategy, yet the code primes it by buffer copy: the code
tests the usage flag `VK_IMAGE_USAGE_DEPTH_STENCIL_ATTACHMENT_BIT`, not the
image's aspect. -/
theorem C1_selector_counterexample :
    newPrimeableImageDataKind ⟨2, 0, 0, true⟩ = some PrimeKind.byCopy ∧
    claimSelectKind ⟨2, 0, 0, true⟩ = none ∧
    (⟨2, 0, 0, true⟩ : ImageInfo).aspectIsDepthStencil = true := by
  refine ⟨rfl, rfl, rfl⟩

/-- C1 (amended): `newPrimeableImageData` selects exactly one priming
strategy by first-match-wins precedence over the four conditions, where
condition 1 is "usage includes transfer-destination AND usage does not
include depth/stencil-attachment"; in particular an image whose usage
includes transfer-destination and color-attachment (and not
depth/stencil-attachment) is primed by copy, never by rendering. -/
theorem C1_selector_precedence :
    (∀ info : ImageInfo, newPrimeableImageDataKind info = amendedSelectKind info) ∧
    (∀ info : ImageInfo,
      info.usage &&& VK_IMAGE_USAGE_TRANSFER_DST_BIT ≠ 0 →
      info.usage &&& VK_IMAGE_USAGE_COLOR_ATTACHMENT_BIT ≠ 0 →
      info.usage &&& VK_IMAGE_USAGE_DEPTH_STENCIL_ATTACHMENT_BIT = 0 →
      newPrimeableImageDataKind info = some PrimeKind.byCopy) := by
  refine ⟨newPrimeableImageDataKind_eq_amended, ?_⟩
  intro info h1 _h2 h3
  have ht : (info.usage &&& VK_IMAGE_USAGE_TRANSFER_DST_BIT != 0) = true := by
    simpa using h1
  have hd : (info.usage &&& VK_IMAGE_USAGE_DEPTH_STENCIL_ATTACHMENT_BIT != 0) = false := by
    simp [h3]
  simp [newPrimeableImageDataKind, ht, hd]

/-- C1 (witness): an image with usage transfer-destination (2) plus
color-attachment (16) is primed by copy. -/
theorem C1_selector_precedence_witness :
    newPrimeableImageDataKind ⟨18, 0, 0, false⟩ = some PrimeKind.byCopy :=
  C1_selector_precedence.2 ⟨18, 0, 0, false⟩ (by decide) (by decide) (by decide)

/-- C7 (counterexample): the staging allocation size is computed with
64-bit arithmetic; at an inferred image size of `2 ^ 63` the doubled size
wraps to 0 and the code allocates the 256 KiB floor, not
`max (2 * imgSize) (256 KiB)`. -/
theorem C7_alloc_counterexample :
    createImageAndBindMemoryAllocSize (2 ^ 63) = 256 * 1024 ∧
    createImageAndBindMemoryAllocSize (2 ^ 63) ≠ max (2 ^ 63 * 2) (256 * 1024) := by
  constructor
  · decide
  · decide

/-- C7 (amended): whenever doubling the inferred size does not overflow
64-bit arithmetic (`imgSize * 2 < 2 ^ 64`), the allocation equals
`max (2 * imgSize) (256 KiB)`: exactly twice the size when that product is
at least 262144 bytes and exactly 262144 bytes otherwise. -/
theorem C7_alloc_size :
    ∀ imgSize : Nat, imgSize * 2 < 2 ^ 64 →
      createImageAndBindMemoryAllocSize imgSize = max (imgSize * 2) (256 * 1024) ∧
      (256 * 1024 ≤ imgSize * 2 → createImageAndBindMemoryAllocSize imgSize = imgSize * 2) ∧
      (imgSize * 2 < 256 * 1024 → createImageAndBindMemoryAllocSize imgSize = 256 * 1024) := by
  intro n h
  simp only [createImageAndBindMemoryAllocSize]
  rw [Nat.mod_eq_of_lt h]
  refine ⟨?_, ?_, ?_⟩
  · split <;> omega
  · intro hge
    rw [if_neg (by omega)]
  · intro hlt
    rw [if_pos (by omega)]

/-- C7 (witness): an image of inferred size 200000 bytes gets a 400000
byte allocation, and one of inferred size 1000 bytes gets the 262144 byte
floor. -/
theorem C7_alloc_size_witness :
    createImageAndBindMemoryAllocSize 200000 = 400000 ∧
    createImageAndBindMemoryAllocSize 1000 = 256 * 1024 :=
  ⟨(C7_alloc_size 200000 (by norm_num)).2.1 (by norm_num),
   (C7_alloc_size 1000 (by norm_num)).2.2 (by norm_num)⟩

/-- C9: for the by-rendering and by-image-store variants, `free` schedules
exactly the stored cleanup callbacks to run after all previously committed
work on the priming queue has executed, nulls the callback list, and a
second `free` schedules no callbacks at all. -/
theorem C9_free_runs_cleanup_once :
    ∀ (s : ipPrimeableByRenderingM) (t : ipPrimeableByImageStoreM),
      (ipPrimeableByRendering.free s).2.deferredUntilExecuted = s.freeCallbacks ∧
      (ipPrimeableByRendering.free s).1.freeCallbacks = [] ∧
      (ipPrimeableByRendering.free (ipPrimeableByRendering.free s).1).2.deferredUntilExecuted = [] ∧
      (ipPrimeableByImageStore.free t).2.deferredUntilExecuted = t.freeCallbacks ∧
      (ipPrimeableByImageStore.free t).1.freeCallbacks = [] ∧
      (ipPrimeableByImageStore.free (ipPrimeableByImageStore.free t).1).2.deferredUntilExecuted = [] := by
  intro s t
  exact ⟨rfl, rfl, rfl, rfl, rfl, rfl⟩

/-- C10: a copy session with zero total content size or no destination
copy lists makes `rolloutBufCopies` return the "no content for buf->img
copy" error, and `prime` on a by-copy primeable built from it propagates
that error instead of succeeding as a no-op. -/
theorem C10_empty_session_errors :
    ∀ (maxSize : Nat) (s : ipBufferImageCopySessionM) (q : List (Except String Unit)),
      s.totalSize = 0 ∨ s.dsts = [] →
      ipBufferImageCopySession.rolloutBufCopies maxSize s q =
        Except.error "no content for buf->img copy" ∧
      ipPrimeableByBufferCopy.prime maxSize s q =
        Except.error
          ("[Rolling out the buf->img copy commands for image] " ++ "no content for buf->img copy") := by
  intro m s q h
  have h1 : ipBufferImageCopySession.rolloutBufCopies m s q =
      Except.error "no content for buf->img copy" := by
    unfold ipBufferImageCopySession.rolloutBufCopies
    rw [if_pos h]
  refine ⟨h1, ?_⟩
  unfold ipPrimeableByBufferCopy.prime
  rw [h1]

/-- C10 (witness): a session that registered one destination image but
collected no content (total size 0) is rejected by both `rolloutBufCopies`
and `prime`. -/
theorem C10_empty_session_errors_witness :
    ipBufferImageCopySession.rolloutBufCopies 1024 ⟨[⟨[]⟩], 0⟩ [] =
      Except.error "no content for buf->img copy" ∧
    ipPrimeableByBufferCopy.prime 1024 ⟨[⟨[]⟩], 0⟩ [] =
      Except.error
        ("[Rolling out the buf->img copy commands for image] " ++ "no content for buf->img copy") :=
  C10_empty_session_errors 1024 ⟨[⟨[]⟩], 0⟩ [] (Or.inl rfl)

/-- C8: `store` rejects with an error, recording no dispatch, every job
whose extent exceeds 65536 in width, height or depth; for every job within
the bound (whose earlier checks pass), the recorded dispatch's group
counts equal the job's pixel extent exactly. -/
theorem C8_store_extent_check :
    ∀ (job : ipImageStoreJobM) (pOk : Bool) (cr : Except String Unit),
      (specMaxComputeGroupCountX < job.extent.width ∨
          specMaxComputeGroupCountY < job.extent.height ∨
          specMaxComputeGroupCountZ < job.extent.depth →
        exceptIsOk (ipImageStoreHandler.store job pOk cr).1 = false ∧
        (ipImageStoreHandler.store job pOk cr).2.1 = none) ∧
      (job.extent.width ≤ specMaxComputeGroupCountX →
        job.extent.height ≤ specMaxComputeGroupCountY →
        job.extent.depth ≤ specMaxComputeGroupCountZ →
        job.imageTypesMatch = true → pOk = true →
        (ipImageStoreHandler.store job pOk cr).2.1 =
          some (job.extent.width, job.extent.height, job.extent.depth)) := by
  intro job pOk cr
  obtain ⟨⟨w, hgt, dep⟩, tm⟩ := job
  constructor
  · intro hover
    dsimp only at hover
    unfold ipImageStoreHandler.store
    repeat' split
    all_goals
      first
        | exact ⟨rfl, rfl⟩
        | (exfalso
           simp only [specMaxComputeGroupCountX, specMaxComputeGroupCountY,
             specMaxComputeGroupCountZ] at *
           omega)
  · intro hw hh hd htm hok
    subst htm; subst hok
    unfold ipImageStoreHandler.store
    rw [if_neg (by simp), if_neg (by simp),
      if_neg (by omega), if_neg (by omega), if_neg (by omega)]
    cases cr <;> rfl

/-- C8 (witness): a 4 × 4 × 4 job passing the earlier checks records a
4 × 4 × 4 dispatch, and a job of width 70000 is rejected with no
dispatch. -/
theorem C8_store_extent_check_witness :
    (ipImageStoreHandler.store ⟨⟨4, 4, 4⟩, true⟩ true (Except.ok ())).2.1 = some (4, 4, 4) ∧
    exceptIsOk (ipImageStoreHandler.store ⟨⟨70000, 4, 4⟩, true⟩ true (Except.ok ())).1 = false ∧
    (ipImageStoreHandler.store ⟨⟨70000, 4, 4⟩, true⟩ true (Except.ok ())).2.1 = none := by
  refine ⟨?_, ?_, ?_⟩
  · exact (C8_store_extent_check ⟨⟨4, 4, 4⟩, true⟩ true (Except.ok ())).2
      (by decide) (by decide) (by decide) rfl rfl
  · exact ((C8_store_extent_check ⟨⟨70000, 4, 4⟩, true⟩ true (Except.ok ())).1
      (Or.inl (by decide))).1
  · exact ((C8_store_extent_check ⟨⟨70000, 4, 4⟩, true⟩ true (Except.ok ())).1
      (Or.inl (by decide))).2

/-- C4 (counterexample): a well-formed store job whose scratch-task commit
fails: `store` logs the commit error and returns success (Go returns
`nil`), so the failure is not propagated to the caller. -/
theorem C4_store_commit_counterexample :
    (ipImageStoreHandler.store ⟨⟨4, 4, 4⟩, true⟩ true (Except.error "commit failed")).1 =
      Except.ok () ∧
    (ipImageStoreHandler.store ⟨⟨4, 4, 4⟩, true⟩ true (Except.error "commit failed")).2.2 =
      ["[Committing scratch task for priming storage image] " ++ "commit failed"] := by
  exact ⟨rfl, rfl⟩

/-- Committing a run of batch tasks consumes one successful commit per
batch and passes the rest of the queue through. -/
theorem commitBatchTasks_all_ok (bs : List (List Nat)) (q : List (Except String Unit)) :
    commitBatchTasks bs (List.replicate bs.length (Except.ok ()) ++ q) = (Except.ok (), q) := by
  induction bs with
  | nil => rfl
  | cons b bs2 ih => exact ih

/-- When the `k`-th batch task's commit fails (all earlier batch commits
succeeding), the run of batch tasks aborts with the batch-copy purpose
named. -/
theorem commitBatchTasks_kth_error (e : String) (q : List (Except String Unit)) :
    ∀ (k : Nat) (bs : List (List Nat)), k < bs.length →
      commitBatchTasks bs (List.replicate k (Except.ok ()) ++ Except.error e :: q) =
        (Except.error ("[Committing scratch buffer filling and image copy commands] " ++ e), q) := by
  intro k
  induction k with
  | zero =>
    intro bs hk
    cases bs with
    | nil => simp at hk
    | cons b bs2 => rfl
  | succ k ih =>
    intro bs hk
    cases bs with
    | nil => simp at hk
    | cons b bs2 =>
      show commitBatchTasks bs2 (List.replicate k (Except.ok ()) ++ Except.error e :: q) = _
      exact ih bs2 (by simpa using hk)

/-- Per-image rollout: a failing commit of the `k`-th batch-copy task is
propagated with the batch-copy purpose named. -/
theorem rolloutDst_batch_commit_error (m : Nat) (d : DstCopies) (k : Nat)
    (hk : k < (rolloutBatches m d.sizes).length) (e : String) (q : List (Except String Unit)) :
    rolloutDst m d
        (Except.ok () :: (List.replicate k (Except.ok ()) ++ Except.error e :: q)) =
      (Except.error ("[Committing scratch buffer filling and image copy commands] " ++ e), q) := by
  unfold rolloutDst
  dsimp only [popCommit]
  rw [commitBatchTasks_kth_error e q k _ hk]

/-- Per-image rollout: when the pre-copy transition and every batch-copy
commit succeed and the post-copy transition's commit fails, the failure is
propagated with the post-copy purpose named. -/
theorem rolloutDst_post_commit_error (m : Nat) (d : DstCopies) (e : String)
    (q : List (Except String Unit)) :
    rolloutDst m d
        (Except.ok () ::
          (List.replicate (rolloutBatches m d.sizes).length (Except.ok ()) ++
            Except.error e :: q)) =
      (Except.error
        ("[Committing post-copy destination image layout transition commands] " ++ e), q) := by
  unfold rolloutDst
  dsimp only [popCommit]
  rw [commitBatchTasks_all_ok (rolloutBatches m d.sizes) (Except.error e :: q)]

/-- C4 (amended): every failing scratch-task commit inside
`rolloutBufCopies` — the pre-copy layout transition, any of the per-batch
scratch-buffer copy tasks, or the post-copy layout transition — is fatal
and propagated to the caller with the task's purpose named, and `prime`
propagates the rollout error further; but `ipImageStoreHandler.store` only
logs a failing commit of its bind/dispatch task: the error result `store`
returns is independent of the commit outcome. -/
theorem C4_commit_error_propagation :
    (∀ (maxSize : Nat) (s : ipBufferImageCopySessionM) (e : String)
        (q : List (Except String Unit)),
      s.totalSize ≠ 0 → s.dsts ≠ [] →
      ipBufferImageCopySession.rolloutBufCopies maxSize s (Except.error e :: q) =
        Except.error
          ("[Committing pre-copy destination image layout transition commands] " ++ e)) ∧
    (∀ (maxSize : Nat) (s : ipBufferImageCopySessionM) (d : DstCopies)
        (ds : List DstCopies) (k : Nat) (e : String) (q : List (Except String Unit)),
      s.totalSize ≠ 0 → s.dsts = d :: ds → k < (rolloutBatches maxSize d.sizes).length →
      ipBufferImageCopySession.rolloutBufCopies maxSize s
          (Except.ok () :: (List.replicate k (Except.ok ()) ++ Except.error e :: q)) =
        Except.error ("[Committing scratch buffer filling and image copy commands] " ++ e)) ∧
    (∀ (maxSize : Nat) (s : ipBufferImageCopySessionM) (d : DstCopies)
        (ds : List DstCopies) (e : String) (q : List (Except String Unit)),
      s.totalSize ≠ 0 → s.dsts = d :: ds →
      ipBufferImageCopySession.rolloutBufCopies maxSize s
          (Except.ok () ::
            (List.replicate (rolloutBatches maxSize d.sizes).length (Except.ok ()) ++
              Except.error e :: q)) =
        Except.error
          ("[Committing post-copy destination image layout transition commands] " ++ e)) ∧
    (∀ (maxSize : Nat) (s : ipBufferImageCopySessionM) (q : List (Except String Unit))
        (e : String),
      ipBufferImageCopySession.rolloutBufCopies maxSize s q = Except.error e →
      ipPrimeableByBufferCopy.prime maxSize s q =
        Except.error ("[Rolling out the buf->img copy commands for image] " ++ e)) ∧
    (∀ (job : ipImageStoreJobM) (pOk : Bool) (cr : Except String Unit),
      (ipImageStoreHandler.store job pOk cr).1 =
        (ipImageStoreHandler.store job pOk (Except.ok ())).1) := by
  refine ⟨?_, ?_, ?_, ?_, ?_⟩
  · intro m s e q h1 h2
    unfold ipBufferImageCopySession.rolloutBufCopies
    rw [if_neg (by tauto)]
    cases hds : s.dsts with
    | nil => exact absurd hds h2
    | cons d ds =>
      unfold rolloutDsts rolloutDst popCommit
      rfl
  · intro m s d ds k e q h1 hds hk
    unfold ipBufferImageCopySession.rolloutBufCopies
    rw [if_neg (not_or.mpr ⟨h1, by rw [hds]; exact List.cons_ne_nil d ds⟩)]
    rw [hds]
    unfold rolloutDsts
    rw [rolloutDst_batch_commit_error m d k hk e q]
  · intro m s d ds e q h1 hds
    unfold ipBufferImageCopySession.rolloutBufCopies
    rw [if_neg (not_or.mpr ⟨h1, by rw [hds]; exact List.cons_ne_nil d ds⟩)]
    rw [hds]
    unfold rolloutDsts
    rw [rolloutDst_post_commit_error m d e q]
  · intro m s q e h
    unfold ipPrimeableByBufferCopy.prime
    rw [h]
  · intro job pOk cr
    cases cr with
    | ok u => cases u; rfl
    | error e =>
      unfold ipImageStoreHandler.store
      repeat' split
      all_goals rfl

/-- C4 (witness): with one destination image holding one 8-byte copy, a
commit failure at the pre-copy transition, at the (single) batch-copy
task, and at the post-copy transition each surfaces with its purpose
named, and `prime` wraps the rollout error. -/
theorem C4_commit_error_propagation_witness :
    ipBufferImageCopySession.rolloutBufCopies 1024 ⟨[⟨[8]⟩], 8⟩ [Except.error "boom"] =
      Except.error
        ("[Committing pre-copy destination image layout transition commands] " ++ "boom") ∧
    ipBufferImageCopySession.rolloutBufCopies 1024 ⟨[⟨[8]⟩], 8⟩
        (Except.ok () :: (List.replicate 0 (Except.ok ()) ++ Except.error "boom" :: [])) =
      Except.error ("[Committing scratch buffer filling and image copy commands] " ++ "boom") ∧
    ipBufferImageCopySession.rolloutBufCopies 1024 ⟨[⟨[8]⟩], 8⟩
        (Except.ok () ::
          (List.replicate (rolloutBatches 1024 (⟨[8]⟩ : DstCopies).sizes).length
              (Except.ok ()) ++
            Except.error "boom" :: [])) =
      Except.error
        ("[Committing post-copy destination image layout transition commands] " ++ "boom") ∧
    ipPrimeableByBufferCopy.prime 1024 ⟨[⟨[8]⟩], 8⟩ [Except.error "boom"] =
      Except.error
        ("[Rolling out the buf->img copy commands for image] " ++
          ("[Committing pre-copy destination image layout transition commands] " ++ "boom")) :=
  ⟨C4_commit_error_propagation.1 1024 ⟨[⟨[8]⟩], 8⟩ "boom" [] (by decide) (by decide),
   C4_commit_error_propagation.2.1 1024 ⟨[⟨[8]⟩], 8⟩ ⟨[8]⟩ [] 0 "boom" []
     (by decide) rfl (by decide),
   C4_commit_error_propagation.2.2.1 1024 ⟨[⟨[8]⟩], 8⟩ ⟨[8]⟩ [] "boom" []
     (by decide) rfl,
   C4_commit_error_propagation.2.2.2.1 1024 ⟨[⟨[8]⟩], 8⟩ [Except.error "boom"] _
     (C4_commit_error_propagation.1 1024 ⟨[⟨[8]⟩], 8⟩ "boom" [] (by decide) (by decide))⟩

/-- Pass 0 clears the stencil attachment, so the final stored value does
not depend on the initial stored value. -/
theorem runStencilRender_clear_first (v s0 : Nat) :
    runStencilRender v s0 = runStencilRender v 0 := by
  have h : renderStencilDrawInfos.enum =
      (0, ⟨1, 1, true⟩) :: [(1, ⟨2, 2, false⟩), (2, ⟨4, 4, false⟩), (3, ⟨8, 8, false⟩),
        (4, ⟨16, 16, false⟩), (5, ⟨32, 32, false⟩), (6, ⟨64, 64, false⟩),
        (7, ⟨128, 128, false⟩)] := by rfl
  unfold runStencilRender
  rw [h]
  simp only [List.foldl_cons]
  have h0 : ∀ s : Nat, runStencilPass v s (0, ⟨1, 1, true⟩) = runStencilPass v 0 (0, ⟨1, 1, true⟩) := by
    intro s
    simp [runStencilPass]
  rw [h0 s0]

set_option maxRecDepth 100000 in
/-- C2: for a stencil render target, `render` records exactly 8 draw
passes; pass `i` sets the dynamic stencil write mask and reference both to
`1 << i` and clears the stencil attachment exactly when `i = 0`; the
pipeline's stencil ops are always-pass/replace; and under the bit-plane
fragment shader and masked-replace stencil semantics, every target stencil
value `V` in 0..255 is stored exactly, from any initial stored value. -/
theorem C2_stencil_render :
    renderStencilDrawInfos.length = 8 ∧
    (∀ i, i < 8 → renderStencilDrawInfos[i]? =
      some { stencilWriteMask := 1 <<< i, stencilReference := 1 <<< i, clearStencil := i == 0 }) ∧
    (ipGfxPipelineStencilFront.compareOp = VK_COMPARE_OP_ALWAYS ∧
      ipGfxPipelineStencilFront.passOp = VK_STENCIL_OP_REPLACE ∧
      ipGfxPipelineStencilFront.failOp = VK_STENCIL_OP_KEEP) ∧
    (∀ v, v < 256 → ∀ s0 : Nat, runStencilRender v s0 = v) := by
  refine ⟨rfl, by decide, ⟨rfl, rfl, rfl⟩, ?_⟩
  intro v hv s0
  rw [runStencilRender_clear_first]
  exact (by decide : ∀ v, v < 256 → runStencilRender v 0 = v) v hv

/-- C2 (witness): target value 173 is reconstructed from initial stored
value 99, and pass 3 uses write mask and reference 8 without clearing. -/
theorem C2_stencil_render_witness :
    runStencilRender 173 99 = 173 ∧
    renderStencilDrawInfos[3]? =
      some { stencilWriteMask := 1 <<< 3, stencilReference := 1 <<< 3, clearStencil := 3 == 0 } :=
  ⟨C2_stencil_render.2.2.2 173 (by decide) 99, C2_stencil_render.2.1 3 (by decide)⟩

/-- A successful `getCopyAndData` returns exactly the effective payload
length, and that length equals the expected aligned size. -/
theorem getCopyAndDataM_ok (r : CopyRegionInput) (l : Nat)
    (h : getCopyAndDataM r = Except.ok l) :
    l = effectivePayloadLen r ∧ l = r.expectedAligned := by
  simp only [getCopyAndDataM] at h
  simp only [effectivePayloadLen]
  by_cases h1 : (unpackRequired r && !r.unpackOk) = true
  · rw [if_pos h1] at h; cases h
  · rw [if_neg h1] at h
    by_cases h2 : (if unpackRequired r then r.unpackedLen else 0) ≠ 0
    · rw [if_pos h2] at h
      rw [if_pos h2]
      by_cases h3 :
          nextMultipleOf (if unpackRequired r then r.unpackedLen else 0) 8 ≠ r.expectedAligned
      · rw [if_pos h3] at h; cases h
      · rw [if_neg h3] at h
        injection h with h
        subst h
        push_neg at h3
        exact ⟨rfl, h3⟩
    · rw [if_neg h2] at h
      rw [if_neg h2]
      by_cases h4 : r.rawLen % 8 ≠ 0
      · rw [if_pos h4] at h
        rw [if_pos h4]
        by_cases h5 : nextMultipleOf r.rawLen 8 ≠ r.expectedAligned
        · rw [if_pos h5] at h; cases h
        · rw [if_neg h5] at h
          injection h with h
          subst h
          push_neg at h5
          exact ⟨rfl, h5⟩
      · rw [if_neg h4] at h
        rw [if_neg h4]
        by_cases h6 : r.rawLen ≠ r.expectedAligned
        · rw [if_pos h6] at h; cases h
        · rw [if_neg h6] at h
          injection h with h
          subst h
          push_neg at h6
          exact ⟨rfl, h6⟩

/-- The collection walk distributes over concatenation of the visited
subresources. -/
theorem collectCopies_append (xs ys : List CopyRegionInput) :
    collectCopiesFromSubresourceRange (xs ++ ys) =
      collectCopiesFromSubresourceRange xs ++ collectCopiesFromSubresourceRange ys := by
  induction xs with
  | nil => rfl
  | cons x xs ih =>
    simp only [List.cons_append, collectCopiesFromSubresourceRange]
    cases getCopyAndDataM x with
    | error e => simpa using ih
    | ok l => simp [ih]

/-- C6: a subresource region whose converted payload length differs from
the destination format's expected aligned per-region size makes
`getCopyAndData` return an error (and any successful result has exactly
the expected length), and the copy-collection walk skips exactly the
failing subresource while continuing to collect the remaining ones. -/
theorem C6_length_mismatch_skips_subresource :
    (∀ r : CopyRegionInput, effectivePayloadLen r ≠ r.expectedAligned →
      exceptIsOk (getCopyAndDataM r) = false) ∧
    (∀ (r : CopyRegionInput) (l : Nat), getCopyAndDataM r = Except.ok l →
      l = r.expectedAligned) ∧
    (∀ (xs ys : List CopyRegionInput) (r : CopyRegionInput),
      exceptIsOk (getCopyAndDataM r) = false →
      collectCopiesFromSubresourceRange (xs ++ r :: ys) =
        collectCopiesFromSubresourceRange xs ++ collectCopiesFromSubresourceRange ys) := by
  refine ⟨?_, ?_, ?_⟩
  · intro r h
    cases hg : getCopyAndDataM r with
    | error e => rfl
    | ok l =>
      exfalso
      have := getCopyAndDataM_ok r l hg
      exact h (this.1 ▸ this.2)
  · intro r l h
    exact (getCopyAndDataM_ok r l h).2
  · intro xs ys r hr
    rw [collectCopies_append]
    congr 1
    cases hg : getCopyAndDataM r with
    | error e => simp [collectCopiesFromSubresourceRange, hg]
    | ok l => rw [hg] at hr; exact absurd hr (by simp [exceptIsOk])

/-- Updating one channel's destination component leaves lookups of other
channels unchanged. -/
theorem findComp_updateDst_ne (l : List StreamComponent) (ch ch' : StreamChannel)
    (dt : StreamDataType) (h : ch' ≠ ch) :
    findComp (updateDst l ch' dt) ch = findComp l ch := by
  induction l with
  | nil => rfl
  | cons d rest ih =>
    simp only [updateDst, List.map_cons, findComp]
    by_cases hd : d.channel = ch'
    · rw [if_pos hd]
      have hb : (d.channel == ch) = false := by
        simp only [hd, beq_eq_false_iff_ne]
        exact h
      simp only [List.find?, hb]
      exact ih
    · rw [if_neg hd]
      by_cases hc : d.channel = ch
      · have hb : (d.channel == ch) = true := by simp [hc]
        simp only [List.find?, hb]
      · have hb : (d.channel == ch) = false := by simp [hc]
        simp only [List.find?, hb]
        exact ih

/-- C6 (witness): a color region needing unpacking whose unpadded payload
is 20 bytes against an expected 32 is rejected, one with payload 24
against expected 24 succeeds with length 24, and in a walk over three
regions the failing middle one is skipped while the other two are
collected. -/
theorem C6_length_mismatch_skips_subresource_witness :
    exceptIsOk (getCopyAndDataM ⟨10, 20, Aspect.color, 16, 20, true, 32⟩) = false ∧
    (getCopyAndDataM ⟨10, 20, Aspect.color, 16, 24, true, 24⟩ = Except.ok 24 →
      (24 : Nat) = 24) ∧
    collectCopiesFromSubresourceRange
        [⟨10, 20, Aspect.color, 16, 24, true, 24⟩, ⟨10, 20, Aspect.color, 16, 20, true, 32⟩,
          ⟨10, 20, Aspect.color, 16, 40, true, 40⟩] =
      collectCopiesFromSubresourceRange [⟨10, 20, Aspect.color, 16, 24, true, 24⟩] ++
        collectCopiesFromSubresourceRange [⟨10, 20, Aspect.color, 16, 40, true, 40⟩] :=
  ⟨C6_length_mismatch_skips_subresource.1 ⟨10, 20, Aspect.color, 16, 20, true, 32⟩ (by decide),
   fun h => C6_length_mismatch_skips_subresource.2.1 _ 24 h,
   C6_length_mismatch_skips_subresource.2.2
     [⟨10, 20, Aspect.color, 16, 24, true, 24⟩]
     [⟨10, 20, Aspect.color, 16, 40, true, 40⟩]
     ⟨10, 20, Aspect.color, 16, 20, true, 32⟩
     (C6_length_mismatch_skips_subresource.1 ⟨10, 20, Aspect.color, 16, 20, true, 32⟩ (by decide))⟩

/-- Updating a channel's destination component rewrites exactly that
component's data type and sampling. -/
theorem findComp_updateDst_eq (l : List StreamComponent) (ch : StreamChannel)
    (dt : StreamDataType) :
    findComp (updateDst l ch dt) ch =
      (findComp l ch).map fun d => { d with dataType := dt, samplingLinear := true } := by
  induction l with
  | nil => rfl
  | cons d rest ih =>
    simp only [updateDst, List.map_cons, findComp]
    by_cases hc : d.channel = ch
    · rw [if_pos hc]
      have hb : (d.channel == ch) = true := by simp [hc]
      simp only [List.find?, hb]
      rfl
    · rw [if_neg hc]
      have hb : (d.channel == ch) = false := by simp [hc]
      simp only [List.find?, hb]
      exact ih

/-- Processing further source components never touches destination
channels that none of them remaps to. -/
theorem unpackDataBuildFormats_preserves (rest : List StreamComponent) :
    ∀ df df', unpackDataBuildFormats rest df = Except.ok df' →
      ∀ ch, ch ∉ rest.map (fun c => remapChannel c.channel) →
        findComp df' ch = findComp df ch := by
  induction rest with
  | nil =>
    intro df df' h ch _
    simp only [unpackDataBuildFormats] at h
    injection h with h
    rw [h]
  | cons sc rest ih =>
    intro df df' h ch hch
    simp only [List.map_cons, List.mem_cons, not_or] at hch
    obtain ⟨hne, hnm⟩ := hch
    simp only [unpackDataBuildFormats] at h
    by_cases hf : (findComp df (remapChannel sc.channel)).isNone = true
    · rw [if_pos hf] at h; cases h
    · rw [if_neg hf] at h
      cases hdt : sc.dataType with
      | int signed bits =>
        rw [hdt] at h
        rw [ih _ _ h ch hnm]
        exact findComp_updateDst_ne _ _ _ _ fun hh => hne hh.symm
      | float ebits mbits =>
        rw [hdt] at h
        rw [ih _ _ h ch hnm]
        exact findComp_updateDst_ne _ _ _ _ fun hh => hne hh.symm
      | other =>
        rw [hdt] at h; cases h

/-- C5: `unpackData` remaps depth and stencil channels onto the red
channel slot of the canonical layout, and rewrites each destination
channel's data type according to the source channel's encoding:
unsigned-normalized/unsigned-integer to unsigned 32-bit, signed-normalized
/signed-integer to signed 32-bit, floating point to 32-bit float. -/
theorem C5_unpack_widens_channels :
    (remapChannel StreamChannel.depth = StreamChannel.red ∧
      remapChannel StreamChannel.stencil = StreamChannel.red) ∧
    (∀ (src df df' : List StreamComponent),
      unpackDataBuildFormats src df = Except.ok df' →
      (src.map fun c => remapChannel c.channel).Nodup →
      ∀ sc ∈ src,
        ((findComp df' (remapChannel sc.channel)).map fun d => d.dataType) =
          widenDataType sc.dataType) := by
  refine ⟨⟨rfl, rfl⟩, ?_⟩
  intro src
  induction src with
  | nil =>
    intro df df' _ _ sc hsc
    simp at hsc
  | cons sc0 rest ih =>
    intro df df' h hnd sc hsc
    simp only [List.map_cons, List.nodup_cons] at hnd
    obtain ⟨hnm, hnd2⟩ := hnd
    simp only [unpackDataBuildFormats] at h
    by_cases hf : (findComp df (remapChannel sc0.channel)).isNone = true
    · rw [if_pos hf] at h; cases h
    · rw [if_neg hf] at h
      obtain ⟨d0, hd0⟩ : ∃ d0, findComp df (remapChannel sc0.channel) = some d0 := by
        cases hfc : findComp df (remapChannel sc0.channel) with
        | none => rw [hfc] at hf; exact absurd rfl hf
        | some d0 => exact ⟨d0, rfl⟩
      rcases List.mem_cons.mp hsc with rfl | hmem
      · cases hdt : sc.dataType with
        | int signed bits =>
          rw [hdt] at h
          rw [unpackDataBuildFormats_preserves rest _ _ h _ hnm]
          rw [findComp_updateDst_eq, hd0]
          simp [widenDataType, hdt]
        | float ebits mbits =>
          rw [hdt] at h
          rw [unpackDataBuildFormats_preserves rest _ _ h _ hnm]
          rw [findComp_updateDst_eq, hd0]
          simp [widenDataType, hdt]
        | other => rw [hdt] at h; cases h
      · cases hdt : sc0.dataType with
        | int signed bits =>
          rw [hdt] at h
          exact ih _ _ h hnd2 sc hmem
        | float ebits mbits =>
          rw [hdt] at h
          exact ih _ _ h hnd2 sc hmem
        | other => rw [hdt] at h; cases h

/-- C5 (witness): a 16-bit unsigned-normalized depth component against the
single-channel 32-bit unsigned staging format lands on the red slot
widened to an unsigned 32-bit integer. -/
theorem C5_unpack_widens_channels_witness :
    ((findComp [⟨StreamChannel.red, streamU32, true⟩] (remapChannel StreamChannel.depth)).map
        fun d => d.dataType) =
      widenDataType (StreamDataType.int false 16) :=
  C5_unpack_widens_channels.2
    [⟨StreamChannel.depth, StreamDataType.int false 16, false⟩]
    [⟨StreamChannel.red, StreamDataType.int false 32, true⟩]
    [⟨StreamChannel.red, streamU32, true⟩]
    rfl (by decide)
    ⟨StreamChannel.depth, StreamDataType.int false 16, false⟩ (by simp)

/-- The sizes a greedy batch extension takes, followed by what it leaves,
is the original descriptor list. -/
theorem takeBatch_append (m : Nat) : ∀ (l : List Nat) (a : Nat),
    (takeBatch m a l).1 ++ (takeBatch m a l).2 = l := by
  intro l
  induction l with
  | nil => intro a; rfl
  | cons s rest ih =>
    intro a
    simp only [takeBatch]
    split
    · rfl
    · simp [ih (a + s)]

/-- The remainder of a greedy batch extension is no longer than the
input. -/
theorem takeBatch_snd_length (m a : Nat) (l : List Nat) :
    (takeBatch m a l).2.length ≤ l.length := by
  have h := congrArg List.length (takeBatch_append m l a)
  simp only [List.length_append] at h
  omega

/-- When the greedy extension took at least one descriptor, the final
running offset rounded up to 256 is within the bound (every taken
descriptor passed the guard). -/
theorem takeBatch_sum_bound (m : Nat) : ∀ (l : List Nat) (a : Nat),
    (takeBatch m a l).1 ≠ [] →
    nextMultipleOf (a + (takeBatch m a l).1.sum) 256 ≤ m := by
  intro l
  induction l with
  | nil => intro a h; simp [takeBatch] at h
  | cons s rest ih =>
    intro a h
    simp only [takeBatch] at h ⊢
    by_cases hg : nextMultipleOf (a + s) 256 > m
    · rw [if_pos hg] at h
      exact absurd rfl h
    · rw [if_neg hg] at h ⊢
      by_cases hp : (takeBatch m (a + s) rest).1 = []
      · simp only [hp, List.sum_cons, List.sum_nil, Nat.add_zero]
        omega
      · have hb := ih (a + s) hp
        simp only [List.sum_cons]
        rw [← Nat.add_assoc]
        exact hb

/-- Concatenating the emitted batches gives back the descriptor list:
every descriptor lands in exactly one consecutive batch. -/
theorem rolloutBatchesAux_join (m : Nat) : ∀ (fuel : Nat) (l : List Nat), l.length ≤ fuel →
    (rolloutBatchesAux m fuel l).flatten = l := by
  intro fuel
  induction fuel with
  | zero =>
    intro l h
    have hnil : l = [] := List.eq_nil_of_length_eq_zero (Nat.le_zero.mp h)
    subst hnil
    rfl
  | succ f ih =>
    intro l h
    cases l with
    | nil => rfl
    | cons s rest =>
      simp only [rolloutBatchesAux, List.flatten_cons]
      have hlen : (takeBatch m s rest).2.length ≤ f := by
        have h1 := takeBatch_snd_length m s rest
        simp only [List.length_cons] at h
        omega
      rw [ih _ hlen]
      simp only [List.cons_append]
      exact congrArg (s :: ·) (takeBatch_append m rest s)

/-- Every emitted batch keeps its rounded total within the bound, provided
every individual descriptor fits (the first descriptor of each batch is
taken unconditionally; all later ones pass the guard). -/
theorem rolloutBatchesAux_sum_bound (m : Nat) : ∀ (fuel : Nat) (l : List Nat),
    (∀ s ∈ l, nextMultipleOf s 256 ≤ m) →
    ∀ b ∈ rolloutBatchesAux m fuel l, nextMultipleOf b.sum 256 ≤ m := by
  intro fuel
  induction fuel with
  | zero => intro l _ b hb; simp [rolloutBatchesAux] at hb
  | succ f ih =>
    intro l hall b hb
    cases l with
    | nil => simp [rolloutBatchesAux] at hb
    | cons s rest =>
      simp only [rolloutBatchesAux, List.mem_cons] at hb
      rcases hb with rfl | hb
      · by_cases hp : (takeBatch m s rest).1 = []
        · simp only [hp, List.sum_cons, List.sum_nil, Nat.add_zero]
          exact hall s (by simp)
        · have hb2 := takeBatch_sum_bound m rest s hp
          simp only [List.sum_cons]
          exact hb2
      · refine ih _ ?_ b hb
        intro x hx
        apply hall
        have hmem : x ∈ (takeBatch m s rest).1 ++ (takeBatch m s rest).2 :=
          List.mem_append_right _ hx
        rw [takeBatch_append] at hmem
        exact List.mem_cons_of_mem s hmem

/-- C3 (counterexample): with a maximum scratch-buffer size of 256 bytes
and a single descriptor of 300 bytes, `rolloutBufCopies` emits the batch
`[300]` whose running offset rounded to 256 is 512, exceeding the maximum:
the first descriptor of each batch is added unconditionally. -/
theorem C3_batching_counterexample :
    rolloutBatches 256 [300] = [[300]] ∧
    ¬ ∀ b ∈ rolloutBatches 256 [300], nextMultipleOf b.sum 256 ≤ 256 := by
  constructor
  · rfl
  · decide

/-- C3 (amended): `rolloutBufCopies` partitions the collected descriptors
into consecutive batches in which every input descriptor appears exactly
once, and — provided each individual descriptor's size rounded up to 256
is itself within the fixed maximum scratch-buffer size — no batch's
running offset rounded up to a multiple of 256 exceeds that maximum. -/
theorem C3_batching :
    ∀ (maxSize : Nat) (sizes : List Nat),
      (rolloutBatches maxSize sizes).flatten = sizes ∧
      ((∀ s ∈ sizes, nextMultipleOf s 256 ≤ maxSize) →
        ∀ b ∈ rolloutBatches maxSize sizes, nextMultipleOf b.sum 256 ≤ maxSize) := by
  intro m sizes
  constructor
  · exact rolloutBatchesAux_join m sizes.length sizes le_rfl
  · intro hall
    exact rolloutBatchesAux_sum_bound m sizes.length sizes hall

/-- C3 (witness): four descriptors against a 1024-byte bound are packed
into batches that cover each exactly once and never exceed the bound. -/
theorem C3_batching_witness :
    (rolloutBatches 1024 [300, 300, 300, 600]).flatten = [300, 300, 300, 600] ∧
    ∀ b ∈ rolloutBatches 1024 [300, 300, 300, 600], nextMultipleOf b.sum 256 ≤ 1024 :=
  ⟨(C3_batching 1024 [300, 300, 300, 600]).1,
   (C3_batching 1024 [300, 300, 300, 600]).2 (by decide)⟩
